import Mathlib

set_option maxHeartbeats 1000000

open Classical

namespace AdaptiveTest

/-! Shallow embedding of the adaptive testing service
    (app/models/adaptive_engine.py, app/services/redis_service.py,
    app/services/supabase_service.py, app/services/cache_manager.py,
    app/main.py).  Proficiency arithmetic is over the reals. -/

/-- Question record, as produced by the question services.  Optional
fields model dictionary keys that may be absent (absent key = none);
the engine reads them with the source defaults via getD. -/
structure Question where
  id : String
  content : String := ""
  options : List String := []
  correct_answer : Option String := none
  concepts : Option (List ℝ) := none
  difficulty : Option ℝ := none
  discrimination : Option ℝ := none
  guessing : Option ℝ := none

/-- Row of the test_responses table (supabase_service.store_response). -/
structure ResponseRow where
  student_id : String
  session_id : String
  question_id : String
  response : ℕ
  is_correct : ℕ
  proficiency_before : List ℝ
  proficiency_after : List ℝ
  timestamp : ℤ

/-- The Q-matrix: a dictionary from question id to Q-vector. -/
def QMatrix : Type := String → Option (List ℝ)

/-- End-criteria dictionary; optional fields model possibly absent keys. -/
structure EndCriteria where
  ctype : Option String := none
  max_questions : Option ℕ := none
  min_questions : Option ℕ := none
  precision_threshold : Option ℝ := none
  classification_threshold : Option ℝ := none

/-- Logistic function scipy.special.expit. -/
noncomputable def expit (x : ℝ) : ℝ := 1 / (1 + Real.exp (-x))

/-- np.dot on two vectors of equal length. -/
def dotList (a b : List ℝ) : ℝ := (List.zipWith (fun x y => x * y) a b).sum

/-- np.clip x lo hi. -/
noncomputable def npclip (x lo hi : ℝ) : ℝ := max lo (min hi x)

/-- Q-matrix row lookup with the source default:
q_matrix.get(question_id, [1] * len(proficiency)). -/
def q_vector_for (qm : QMatrix) (id : String) (k : ℕ) : List ℝ :=
  (qm id).getD (List.replicate k 1)

/-- AdaptiveEngine._calculate_probability: clamped 2PL probability of a
correct response. -/
noncomputable def calculate_probability (proficiency : List ℝ) (q : Question)
    (qm : QMatrix) : ℝ :=
  let q_vector := q_vector_for qm q.id proficiency.length
  let discrimination := q.discrimination.getD 1
  let difficulty := q.difficulty.getD 0
  let linear_term := discrimination * dotList q_vector proficiency - difficulty
  npclip (expit linear_term) 0.01 0.99

/-- AdaptiveEngine._calculate_information: Fisher information a^2 p (1-p). -/
noncomputable def calculate_information (q : Question) (proficiency : List ℝ)
    (qm : QMatrix) : ℝ :=
  let prob := calculate_probability proficiency q qm
  (q.discrimination.getD 1) ^ 2 * prob * (1 - prob)

/-- AdaptiveEngine.update_ability: one clipped gradient-ascent step. -/
noncomputable def update_ability (learning_rate : ℝ) (current_proficiency : List ℝ)
    (q : Question) (response : ℝ) (qm : QMatrix) : List ℝ :=
  let q_vector := q_vector_for qm q.id current_proficiency.length
  let prob := calculate_probability current_proficiency q qm
  let error := response - prob
  let discrimination := q.discrimination.getD 1
  List.zipWith
    (fun theta qi =>
      npclip (theta + learning_rate * (error * prob * (1 - prob) * discrimination * qi))
        (-3) 3)
    current_proficiency q_vector

/-- One step of the selection loop in select_next_question: the running
pair is (max_info, best_question); update only on strict improvement. -/
noncomputable def selStep (f : Question → ℝ) (acc : ℝ × Question) (q : Question) :
    ℝ × Question :=
  if acc.1 < f q then (f q, q) else acc

/-- Ids of the already answered questions (select_next_question line 18). -/
def used_ids (responses : List ResponseRow) : List String :=
  responses.map (fun r => r.question_id)

/-- Unanswered questions, in pool order (select_next_question line 19). -/
def available_questions (questions : List Question)
    (responses : List ResponseRow) : List Question :=
  questions.filter (fun q => decide (q.id ∉ used_ids responses))

/-- AdaptiveEngine.select_next_question.  none models the empty-dict
marker returned when no unanswered question remains. -/
noncomputable def select_next_question (questions : List Question) (qm : QMatrix)
    (proficiency : List ℝ) (responses : List ResponseRow) : Option Question :=
  match available_questions questions responses with
  | [] => none
  | q0 :: rest =>
      some (((q0 :: rest).foldl
        (selStep (fun q => calculate_information q proficiency qm)) ((-1 : ℝ), q0)).2)

/-- Mean of a list (np.mean); 0/0 = 0 conventionally only arises off the
source paths. -/
noncomputable def listMean (l : List ℝ) : ℝ := l.sum / l.length

/-- Population variance (np.var). -/
noncomputable def npvar (l : List ℝ) : ℝ :=
  listMean (l.map (fun x => (x - listMean l) ^ 2))

/-- AdaptiveEngine._estimate_precision. -/
noncomputable def estimate_precision (responses : List ResponseRow)
    (proficiency : List ℝ) : ℝ :=
  if responses.length < 2 then 1.0
  else
    let recent := ((responses.drop (responses.length - 5)).map
      (fun r => r.proficiency_after))
    if recent.length < 2 then 1.0
    else
      let variances := (List.range proficiency.length).filterMap
        (fun i =>
          let concept_proficiencies := recent.map (fun p => p.getD i 0)
          if 1 < concept_proficiencies.length then some (npvar concept_proficiencies)
          else none)
      let avg_variance := if variances = [] then 1.0 else listMean variances
      1.0 / (1.0 + avg_variance)

/-- AdaptiveEngine._estimate_classification_confidence. -/
noncomputable def estimate_classification_confidence (proficiency : List ℝ) : ℝ :=
  min (listMean (proficiency.map (fun p => |p|)) / 2.0) 1.0

/-- AdaptiveEngine.should_continue. -/
noncomputable def should_continue (responses : List ResponseRow)
    (proficiency : List ℝ) (end_criteria : EndCriteria) : Bool :=
  let num_responses := responses.length
  let criteria_type := end_criteria.ctype.getD "fixed_length"
  let min_questions := end_criteria.min_questions.getD 5
  if num_responses < min_questions then true
  else
    let max_questions := end_criteria.max_questions.getD 20
    if max_questions ≤ num_responses then false
    else if criteria_type = "fixed_length" then decide (num_responses < max_questions)
    else if criteria_type = "precision" then
      decide (end_criteria.precision_threshold.getD 0.3 <
        estimate_precision responses proficiency)
    else if criteria_type = "classification" then
      decide (estimate_classification_confidence proficiency <
        end_criteria.classification_threshold.getD 0.8)
    else false

/-- The learning rate of the engine instance constructed in main.py. -/
noncomputable def engine_learning_rate : ℝ := 0.1

/-- QuestionService.create_q_matrix: dict built in list order, a later
question with the same id overwrites an earlier one. -/
def create_q_matrix (questions : List Question) : QMatrix :=
  questions.foldl
    (fun m q => fun id =>
      if id = q.id then some (q.concepts.getD [1, 0, 0, 0, 0]) else m id)
    (fun _ => none)

/-- Hot session state kept in Redis (the dict written by main.py;
store_session_state always sets last_activity). -/
structure SessionState where
  student_id : String
  question_pool_id : String
  current_proficiency : List ℝ
  next_question_id : String
  status : String
  questions_answered : ℕ
  correct_count : ℕ
  end_criteria : EndCriteria
  last_activity : ℤ

/-- A Redis value together with its expiry instant (setex). -/
structure StoredEntry where
  state : SessionState
  expires_at : ℤ

/-- The hot store restricted to session-state keys, indexed by session id. -/
def RedisStore : Type := String → Option StoredEntry

/-- RedisService.store_session_state: overwrites last_activity with the
current time and sets a 30-minute expiry, whatever the caller passed in. -/
def store_session_state (store : RedisStore) (session_id : String)
    (state : SessionState) (now : ℤ) : RedisStore :=
  fun k =>
    if k = session_id then
      some ⟨{ state with last_activity := now }, now + 30 * 60⟩
    else store k

/-- RedisService.get_session_state; a key past its expiry is gone. -/
def get_session_state (store : RedisStore) (session_id : String) (now : ℤ) :
    Option SessionState :=
  match store session_id with
  | some e => if now < e.expires_at then some e.state else none
  | none => none

/-- RedisService.update_session_proficiency: partial update of the hot
state (proficiency, question count, last_activity), then a full store. -/
def update_session_proficiency (store : RedisStore) (session_id : String)
    (proficiency : List ℝ) (questions_answered : ℕ) (now : ℤ) : RedisStore :=
  match get_session_state store session_id now with
  | none => store
  | some st =>
      store_session_state store session_id
        { st with
            current_proficiency := proficiency
            questions_answered := questions_answered
            last_activity := now } now

/-- RedisService.delete_session_state. -/
def delete_session_state (store : RedisStore) (session_id : String) : RedisStore :=
  fun k => if k = session_id then none else store k

/-- Row of the test_sessions table. -/
structure SessionRow where
  id : String
  student_id : String
  question_pool_id : String
  status : String
  initial_proficiency : List ℝ
  final_proficiency : Option (List ℝ) := none
  total_questions : ℕ := 0
  correct_responses : ℕ := 0
  accuracy : Option ℝ := none
  started_at : ℤ
  last_activity : ℤ
  completed_at : Option ℤ := none

/-- The mutable backing state touched by the session endpoints: the hot
store, the submission locks, and the warm-store tables. -/
structure World where
  redis : RedisStore
  locks : String × String → Bool
  students : List String
  profs : String → List ℝ
  sessions : List SessionRow
  test_responses : List ResponseRow

/-- Environment: the question-lookup services, whose backing caches are
not at issue in the session claims. -/
structure Env where
  pool_questions : String → List Question
  question_by_id : String → Option Question

/-- SupabaseService.get_or_create_student, together with the initial
0.5-per-concept proficiency records it creates for a new student. -/
def get_or_create_student (w : World) (student_id : String)
    (concept_names : List String) : World :=
  if student_id ∈ w.students then w
  else
    { w with
        students := student_id :: w.students
        profs := fun s =>
          if s = student_id then List.replicate concept_names.length 0.5
          else w.profs s }

/-- SupabaseService.get_current_proficiency ([] when no records). -/
def get_current_proficiency (w : World) (student_id : String) : List ℝ :=
  w.profs student_id

/-- SupabaseService.create_user_proficiency. -/
def create_user_proficiency (w : World) (student_id : String)
    (proficiency : List ℝ) (concept_names : List String) : World :=
  { w with
      profs := fun s =>
        if s = student_id then
          (List.range concept_names.length).map (fun i => proficiency.getD i 0.5)
        else w.profs s }

/-- SupabaseService.update_user_proficiency: rewrites the per-concept
records only when the stored count matches the new vector. -/
def update_user_proficiency (w : World) (student_id : String)
    (proficiency : List ℝ) : World :=
  if 0 < (w.profs student_id).length ∧
      (w.profs student_id).length = proficiency.length then
    { w with
        profs := fun s => if s = student_id then proficiency else w.profs s }
  else w

/-- SupabaseService.create_session. -/
def create_session (w : World) (session_id student_id question_pool_id : String)
    (initial_proficiency : List ℝ) (now : ℤ) : World :=
  { w with
      sessions :=
        { id := session_id
          student_id := student_id
          question_pool_id := question_pool_id
          status := "active"
          initial_proficiency := initial_proficiency
          started_at := now
          last_activity := now } :: w.sessions }

/-- SupabaseService.store_response: appends a row to test_responses. -/
def store_response (w : World) (student_id session_id question_id : String)
    (response : ℕ) (proficiency_before proficiency_after : List ℝ) (now : ℤ) :
    World :=
  { w with
      test_responses := w.test_responses ++
        [{ student_id := student_id
           session_id := session_id
           question_id := question_id
           response := response
           is_correct := response
           proficiency_before := proficiency_before
           proficiency_after := proficiency_after
           timestamp := now }] }

/-- SupabaseService.get_user_responses filtered to one session, in
timestamp (= insertion) order. -/
def get_user_responses (w : World) (student_id session_id : String) :
    List ResponseRow :=
  w.test_responses.filter
    (fun r => r.student_id == student_id && r.session_id == session_id)

/-- SupabaseService.update_session_activity. -/
def update_session_activity (w : World) (session_id : String) (now : ℤ) : World :=
  { w with
      sessions := w.sessions.map
        (fun row =>
          if row.id = session_id then { row with last_activity := now } else row) }

/-- SupabaseService.complete_session. -/
noncomputable def complete_session (w : World) (session_id : String)
    (final_proficiency : List ℝ) (total_questions correct_responses : ℕ)
    (now : ℤ) : World :=
  { w with
      sessions := w.sessions.map
        (fun row =>
          if row.id = session_id then
            { row with
                status := "completed"
                final_proficiency := some final_proficiency
                total_questions := total_questions
                correct_responses := correct_responses
                accuracy := some
                  (if 0 < total_questions then
                    (correct_responses : ℝ) / (total_questions : ℝ)
                  else 0.0)
                completed_at := some now }
          else row) }

/-- SupabaseService.get_session. -/
def get_session (w : World) (session_id : String) : Option SessionRow :=
  w.sessions.find? (fun row => row.id == session_id)

/-- RedisService.acquire_submission_lock (SET NX): true iff the lock was
newly acquired. -/
def lock_free (w : World) (session_id question_id : String) : Bool :=
  ! w.locks (session_id, question_id)

/-- World after taking the submission lock. -/
def take_lock (w : World) (session_id question_id : String) : World :=
  { w with
      locks := fun k => if k = (session_id, question_id) then true else w.locks k }

/-- RedisService.release_submission_lock. -/
def release_lock (w : World) (session_id question_id : String) : World :=
  { w with
      locks := fun k => if k = (session_id, question_id) then false else w.locks k }

/-- Payload of a successful /api/test/start response. -/
structure StartPayload where
  session_id : String
  student_id : String
  initial_proficiency : List ℝ
  concept_names : List String
  next_question : Question
  status : String

/-- Outcome of /api/test/start. -/
inductive StartResult where
  | badRequest : StartResult
  | poolUnavailable : StartResult
  | internalError : StartResult
  | ok : StartPayload → StartResult

/-- main.start_test.  The fresh uuid and the clock are passed in. -/
noncomputable def start_test (env : Env) (w : World) (student_id : String)
    (question_pool_id : String) (concept_names : List String)
    (end_criteria : EndCriteria) (session_id : String) (now : ℤ) :
    StartResult × World :=
  if student_id = "" then (.badRequest, w)
  else
    let questions := env.pool_questions question_pool_id
    if questions = [] then (.poolUnavailable, w)
    else
      let q_matrix := create_q_matrix questions
      let w1 := get_or_create_student w student_id concept_names
      let initial0 := get_current_proficiency w1 student_id
      let w2 :=
        if initial0 = [] then
          create_user_proficiency w1 student_id
            (List.replicate concept_names.length 0.5) concept_names
        else w1
      let initial_proficiency :=
        if initial0 = [] then List.replicate concept_names.length 0.5 else initial0
      let w3 := create_session w2 session_id student_id question_pool_id
        initial_proficiency now
      match select_next_question questions q_matrix initial_proficiency [] with
      | none => (.internalError, w3)
      | some next_question =>
          let redis_state : SessionState :=
            { student_id := student_id
              question_pool_id := question_pool_id
              current_proficiency := initial_proficiency
              next_question_id := next_question.id
              status := "active"
              questions_answered := 0
              correct_count := 0
              end_criteria := end_criteria
              last_activity := now }
          let w4 := { w3 with
            redis := store_session_state w3.redis session_id redis_state now }
          (.ok
            { session_id := session_id
              student_id := student_id
              initial_proficiency := initial_proficiency
              concept_names := concept_names
              next_question := next_question
              status := "started" }, w4)

/-- Outcome of /api/test/submit. -/
inductive SubmitResult where
  | duplicate : SubmitResult
  | sessionNotFound : SubmitResult
  | sessionInactive : SubmitResult
  | questionNotFound : SubmitResult
  | internalError : SubmitResult
  | continueTest : List ℝ → Question → ℕ → SubmitResult
  | completed : List ℝ → ℕ → ℝ → SubmitResult

/-- main.submit_response.  Sequentialized: one call runs to completion;
a held lock models a concurrent in-flight submit for the same pair. -/
noncomputable def submit_response (env : Env) (w : World)
    (session_id question_id : String) (response : ℕ) (now : ℤ) :
    SubmitResult × World :=
  if lock_free w session_id question_id = false then (.duplicate, w)
  else
    let w1 := take_lock w session_id question_id
    match get_session_state w1.redis session_id now with
    | none => (.sessionNotFound, release_lock w1 session_id question_id)
    | some session_state =>
        if session_state.status ≠ "active" then
          (.sessionInactive, release_lock w1 session_id question_id)
        else
          match env.question_by_id question_id with
          | none => (.questionNotFound, release_lock w1 session_id question_id)
          | some question =>
              let questions := env.pool_questions session_state.question_pool_id
              let q_matrix := create_q_matrix questions
              let current_proficiency := session_state.current_proficiency
              let new_proficiency := update_ability engine_learning_rate
                current_proficiency question (response : ℝ) q_matrix
              let questions_answered := session_state.questions_answered + 1
              let correct_count := session_state.correct_count +
                (if response = 1 then 1 else 0)
              let w2 := update_user_proficiency w1 session_state.student_id
                new_proficiency
              let w3 := store_response w2 session_state.student_id session_id
                question_id response current_proficiency new_proficiency now
              let w4 := update_session_activity w3 session_id now
              let responses := get_user_responses w4 session_state.student_id
                session_id
              if should_continue responses new_proficiency
                  session_state.end_criteria then
                let next_question := select_next_question questions q_matrix
                  new_proficiency responses
                let w5 := { w4 with
                  redis := update_session_proficiency w4.redis session_id
                    new_proficiency questions_answered now }
                match next_question with
                | none => (.internalError, release_lock w5 session_id question_id)
                | some nq =>
                    let final_state := { session_state with
                      next_question_id := nq.id
                      correct_count := correct_count }
                    let w6 := { w5 with
                      redis := store_session_state w5.redis session_id
                        final_state now }
                    (.continueTest new_proficiency nq questions_answered,
                      release_lock w6 session_id question_id)
              else
                let w5 := complete_session w4 session_id new_proficiency
                  questions_answered correct_count now
                let w6 := { w5 with
                  redis := delete_session_state w5.redis session_id }
                (.completed new_proficiency questions_answered
                  (if 0 < questions_answered then
                    (correct_count : ℝ) / (questions_answered : ℝ)
                  else 0.0),
                  release_lock w6 session_id question_id)

/-- Payload of /api/test/end. -/
structure EndPayload where
  status : String
  final_proficiency : List ℝ
  total_questions : ℕ
  accuracy : ℝ

/-- Outcome of /api/test/end. -/
inductive EndResult where
  | notFound : EndResult
  | ok : EndPayload → EndResult

/-- main.end_test. -/
noncomputable def end_test (w : World) (session_id : String) (now : ℤ) :
    EndResult × World :=
  match get_session_state w.redis session_id now with
  | some session_state =>
      let questions_answered := session_state.questions_answered
      let correct_count := session_state.correct_count
      let w1 := complete_session w session_id session_state.current_proficiency
        questions_answered correct_count now
      let w2 := { w1 with redis := delete_session_state w1.redis session_id }
      (.ok
        { status := "ended"
          final_proficiency := session_state.current_proficiency
          total_questions := questions_answered
          accuracy :=
            if 0 < questions_answered then
              (correct_count : ℝ) / (questions_answered : ℝ)
            else 0.0 }, w2)
  | none =>
      match get_session w session_id with
      | none => (.notFound, w)
      | some session_data =>
          (.ok
            { status := session_data.status
              final_proficiency := session_data.final_proficiency.getD []
              total_questions := session_data.total_questions
              accuracy := session_data.accuracy.getD 0 }, w)

/-- Outcome of one cache tier consulted by the waterfall: ok (some d)
is a hit, ok none a miss, error a raised exception. -/
def TierOutcome (α : Type) : Type := Except Unit (Option α)

/-- Cache-manager statistics counters. -/
structure CacheStats where
  redis_hits : ℕ := 0
  redis_misses : ℕ := 0
  supabase_hits : ℕ := 0
  supabase_misses : ℕ := 0
  external_api_calls : ℕ := 0
  total_requests : ℕ := 0

/-- CacheManager.get_question_pool: the three-tier waterfall read, with
the outcome of each tier supplied as data.  Tier 3 is split as in the
source into the raw fetch and transform_to_internal_format. -/
def cm_get_question_pool {α β : Type} (t1 : TierOutcome α) (t2 : TierOutcome α)
    (t3 : TierOutcome β) (transform : β → Option α) (stats : CacheStats) :
    Option α × CacheStats :=
  let stats := { stats with total_requests := stats.total_requests + 1 }
  let afterT1 : Option (Option α × CacheStats) :=
    match t1 with
    | .ok (some d) =>
        some (some d, { stats with redis_hits := stats.redis_hits + 1 })
    | .ok none =>
        none
    | .error _ => none
  match afterT1 with
  | some r => r
  | none =>
      let stats :=
        match t1 with
        | .ok none => { stats with redis_misses := stats.redis_misses + 1 }
        | _ => stats
      let afterT2 : Option (Option α × CacheStats) :=
        match t2 with
        | .ok (some d) =>
            some (some d, { stats with supabase_hits := stats.supabase_hits + 1 })
        | _ => none
      match afterT2 with
      | some r => r
      | none =>
          let stats :=
            match t2 with
            | .ok none =>
                { stats with supabase_misses := stats.supabase_misses + 1 }
            | _ => stats
          let stats :=
            { stats with external_api_calls := stats.external_api_calls + 1 }
          match t3 with
          | .ok (some raw) =>
              match transform raw with
              | some pool => (some pool, stats)
              | none => (none, stats)
          | _ => (none, stats)

/-- The pool data a single tier yields: its hit value, with both a miss
and a raised error yielding nothing. -/
def tier_yield {α : Type} (t : TierOutcome α) : Option α :=
  match t with
  | .ok (some d) => some d
  | _ => none

/-- Written from the words of the spec, for comparison with the source
functions: the default Q-vector the spec claims, [1, 0, ..., 0]
(concept 0 only). -/
def q_vector_default_spec (k : ℕ) : List ℝ := 1 :: List.replicate (k - 1) 0

/-- Written from the words of the spec: Q-matrix lookup under the
claimed default. -/
def q_vector_for_spec (qm : QMatrix) (id : String) (k : ℕ) : List ℝ :=
  (qm id).getD (q_vector_default_spec k)

/-- Written from the words of the spec: probability computation as the
spec describes it, differing from the source only in the missing-entry
default Q-vector. -/
noncomputable def calculate_probability_specDefault (proficiency : List ℝ)
    (q : Question) (qm : QMatrix) : ℝ :=
  let q_vector := q_vector_for_spec qm q.id proficiency.length
  let discrimination := q.discrimination.getD 1
  let difficulty := q.difficulty.getD 0
  let linear_term := discrimination * dotList q_vector proficiency - difficulty
  npclip (expit linear_term) 0.01 0.99

/-- Written from the words of the spec: proficiency update as the spec
describes it, differing from the source only in the missing-entry
default Q-vector. -/
noncomputable def update_ability_specDefault (learning_rate : ℝ)
    (current_proficiency : List ℝ) (q : Question) (response : ℝ)
    (qm : QMatrix) : List ℝ :=
  let q_vector := q_vector_for_spec qm q.id current_proficiency.length
  let prob := calculate_probability_specDefault current_proficiency q qm
  let error := response - prob
  let discrimination := q.discrimination.getD 1
  List.zipWith
    (fun theta qi =>
      npclip (theta + learning_rate * (error * prob * (1 - prob) * discrimination * qi))
        (-3) 3)
    current_proficiency q_vector

/-- Concrete fixtures used to evaluate the endpoints on closed inputs. -/
def qEmpty : QMatrix := fun _ => none

def ecNone : EndCriteria := {}

def qC2 : Question := { id := "qx", discrimination := some 1, difficulty := some 0 }

def qC8 : Question := { id := "q8", discrimination := some 1, difficulty := some 0 }

def qmC8 : QMatrix := fun _ => some [1]

def rowC5 : ResponseRow :=
  { student_id := "s", session_id := "t", question_id := "q", response := 1,
    is_correct := 1, proficiency_before := [], proficiency_after := [],
    timestamp := 0 }

def ecC5 : EndCriteria := { min_questions := some 10, max_questions := some 5 }

def ecC5min0 : EndCriteria := { min_questions := some 0, max_questions := some 6 }

def qC6 : Question := { id := "qa" }

def rowC6 : ResponseRow :=
  { student_id := "s", session_id := "t", question_id := "qa", response := 1,
    is_correct := 1, proficiency_before := [], proficiency_after := [],
    timestamp := 0 }

def qC3 : Question :=
  { id := "q1", content := "What is 2 + 2?", options := ["3", "4", "5", "6"],
    correct_answer := some "4", concepts := some [1], difficulty := some 0.2,
    discrimination := some 1 }

def envC3 : Env := { pool_questions := fun _ => [qC3], question_by_id := fun _ => some qC3 }

/-- A fresh empty world. -/
def emptyWorld : World :=
  { redis := fun _ => none
    locks := fun _ => false
    students := []
    profs := fun _ => []
    sessions := []
    test_responses := [] }

def plC3 : StartPayload :=
  { session_id := "sess", student_id := "s1", initial_proficiency := [0.5],
    concept_names := ["Math"], next_question := qC3, status := "started" }

def q1C4 : Question :=
  { id := "q1", correct_answer := some "a", concepts := some [1],
    difficulty := some 0, discrimination := some 1 }

def q2C4 : Question :=
  { id := "q2", correct_answer := some "b", concepts := some [1],
    difficulty := some 0, discrimination := some 1 }

def envC4 : Env :=
  { pool_questions := fun _ => [q1C4, q2C4]
    question_by_id := fun id => if id = "q1" then some q1C4 else
      if id = "q2" then some q2C4 else none }

def stC4 : SessionState :=
  { student_id := "st", question_pool_id := "p", current_proficiency := [0.5],
    next_question_id := "q1", status := "active", questions_answered := 0,
    correct_count := 0, end_criteria := ecNone, last_activity := 0 }

def rowDbC4 : SessionRow :=
  { id := "s", student_id := "st", question_pool_id := "p", status := "active",
    initial_proficiency := [0.5], started_at := 0, last_activity := 0 }

def wC4 : World :=
  { redis := fun k => if k = "s" then some ⟨stC4, 100⟩ else none
    locks := fun _ => false
    students := ["st"]
    profs := fun s => if s = "st" then [0.5] else []
    sessions := [rowDbC4]
    test_responses := [] }

/-- The same world with the submission lock for (s, q1) held. -/
def wC4locked : World := { wC4 with locks := fun _ => true }

/-- The proficiency vector the first submit on wC4 computes. -/
noncomputable def npC4 : List ℝ :=
  update_ability engine_learning_rate [0.5] q1C4 ((1 : ℕ) : ℝ)
    (create_q_matrix [q1C4, q2C4])

/-- The response row the submit on wC4 stores at time t. -/
noncomputable def rowC4 (t : ℤ) : ResponseRow :=
  { student_id := "st", session_id := "s", question_id := "q1", response := 1,
    is_correct := 1, proficiency_before := [0.5], proficiency_after := npC4,
    timestamp := t }

/-- The stale hot state left in Redis after the first submit on wC4. -/
def stC4after : SessionState :=
  { stC4 with next_question_id := "q2", correct_count := 1, last_activity := 10 }

def stC7 : SessionState :=
  { student_id := "st", question_pool_id := "p", current_proficiency := [2],
    next_question_id := "q1", status := "active", questions_answered := 1,
    correct_count := 1, end_criteria := ecNone, last_activity := 0 }

def rowDbC7 : SessionRow :=
  { id := "s", student_id := "st", question_pool_id := "p", status := "active",
    initial_proficiency := [0.5], started_at := 0, last_activity := 0 }

def wC7 : World :=
  { redis := fun k => if k = "s" then some ⟨stC7, 100⟩ else none
    locks := fun _ => false
    students := ["st"]
    profs := fun s => if s = "st" then [2] else []
    sessions := [rowDbC7]
    test_responses := [] }

theorem prob_ge (proficiency : List ℝ) (q : Question) (qm : QMatrix) :
    0.01 ≤ calculate_probability proficiency q qm := by
  unfold calculate_probability npclip
  exact le_max_left _ _

theorem prob_le (proficiency : List ℝ) (q : Question) (qm : QMatrix) :
    calculate_probability proficiency q qm ≤ 0.99 := by
  unfold calculate_probability npclip
  exact max_le (by norm_num) (min_le_left _ _)

lemma npclip_id (x lo hi : ℝ) (h1 : lo ≤ x) (h2 : x ≤ hi) : npclip x lo hi = x := by
  unfold npclip
  rw [min_eq_right h2, max_eq_right h1]

lemma npclip_le_hi (x lo hi : ℝ) (h : lo ≤ hi) : npclip x lo hi ≤ hi :=
  max_le h (min_le_left _ _)

lemma npclip_pos (x : ℝ) (h0 : 0 < x) : 0 < npclip x (-3) 3 :=
  lt_of_lt_of_le (lt_min (by norm_num) h0) (le_max_right _ _)

lemma getD_zipWith (f : ℝ → ℝ → ℝ) (l1 l2 : List ℝ) (i : ℕ) (d : ℝ)
    (h1 : i < l1.length) (h2 : i < l2.length) :
    (List.zipWith f l1 l2).getD i d = f (l1.getD i d) (l2.getD i d) := by
  induction l1 generalizing l2 i with
  | nil => simp at h1
  | cons a l ih =>
      cases l2 with
      | nil => simp at h2
      | cons b l2 =>
          cases i with
          | zero => simp [List.getD]
          | succ n =>
              simp only [List.zipWith_cons_cons, List.getD_cons_succ]
              exact ih _ _ (by simpa using h1) (by simpa using h2)

lemma should_continue_of_lt_min (responses : List ResponseRow)
    (proficiency : List ℝ) (ec : EndCriteria)
    (h : responses.length < ec.min_questions.getD 5) :
    should_continue responses proficiency ec = true := by
  unfold should_continue
  simp [h]

lemma should_continue_of_ge_max (responses : List ResponseRow)
    (proficiency : List ℝ) (ec : EndCriteria)
    (h1 : ec.min_questions.getD 5 ≤ responses.length)
    (h2 : ec.max_questions.getD 20 ≤ responses.length) :
    should_continue responses proficiency ec = false := by
  unfold should_continue
  rw [if_neg (by omega), if_pos (by omega)]

lemma cm_get_fst {α β : Type} (t1 t2 : TierOutcome α) (t3 : TierOutcome β)
    (transform : β → Option α) (stats : CacheStats) :
    (cm_get_question_pool t1 t2 t3 transform stats).1 =
      match tier_yield t1 with
      | some d => some d
      | none =>
          match tier_yield t2 with
          | some d => some d
          | none => (tier_yield t3).bind transform := by
  rcases t1 with e1 | (_ | d1) <;> rcases t2 with e2 | (_ | d2) <;>
    rcases t3 with e3 | (_ | r3) <;>
      simp [cm_get_question_pool, tier_yield] <;>
        rcases h : transform r3 with _ | pool <;> simp [h]

/-- C10: every write of hot session state through store_session_state
overwrites the stored last_activity field with the current instant,
whatever last_activity the caller supplied in the state, and resets the
key expiry to the 30-minute inactivity TTL. -/
theorem C10_store_session_state_refreshes (store : RedisStore)
    (session_id : String) (state : SessionState) (now : ℤ) :
    store_session_state store session_id state now session_id =
      some ⟨{ state with last_activity := now }, now + 30 * 60⟩ := by
  unfold store_session_state
  simp

/-- C9: in the three-tier waterfall read, an error raised by tier 1 or
tier 2 is absorbed and the read continues with the next tier exactly as
on a miss, and the result is none precisely when none of the three
tiers yields pool data. -/
theorem C9_waterfall {α β : Type} (t1 t2 : TierOutcome α) (t3 : TierOutcome β)
    (transform : β → Option α) (stats : CacheStats) :
    ((cm_get_question_pool t1 t2 t3 transform stats).1 = none ↔
      tier_yield t1 = none ∧ tier_yield t2 = none ∧
        (tier_yield t3).bind transform = none) ∧
    (cm_get_question_pool (.error ()) t2 t3 transform stats).1 =
      (cm_get_question_pool (.ok none) t2 t3 transform stats).1 ∧
    (cm_get_question_pool t1 (.error ()) t3 transform stats).1 =
      (cm_get_question_pool t1 (.ok (none : Option α)) t3 transform stats).1 := by
  refine ⟨?_, ?_, ?_⟩
  · rw [cm_get_fst]
    rcases t1 with e1 | (_ | d1) <;> rcases t2 with e2 | (_ | d2) <;>
      simp [tier_yield]
  · rw [cm_get_fst, cm_get_fst]
    simp [tier_yield]
  · rw [cm_get_fst, cm_get_fst]
    simp [tier_yield]

/-- C5, counterexample: with end-criteria min_questions = 10 and
max_questions = 5, a response list of length 5 is at max_questions yet
should_continue still returns continue, because the min-questions check
runs first. -/
theorem C5_counterexample :
    should_continue (List.replicate 5 rowC5) [] ecC5 = true ∧
    ecC5.max_questions.getD 20 ≤ (List.replicate 5 rowC5).length := by
  constructor
  · exact should_continue_of_lt_min _ _ _ (by simp [ecC5])
  · simp [ecC5]

/-- C5, amended: answered below min_questions always continues; answered
at or above max_questions stops provided answered is also at or above
min_questions (the min-questions check takes precedence). -/
theorem C5_amended (responses : List ResponseRow) (proficiency : List ℝ)
    (ec : EndCriteria) :
    (responses.length < ec.min_questions.getD 5 →
      should_continue responses proficiency ec = true) ∧
    (ec.min_questions.getD 5 ≤ responses.length →
      ec.max_questions.getD 20 ≤ responses.length →
      should_continue responses proficiency ec = false) :=
  ⟨fun h => should_continue_of_lt_min _ _ _ h,
    fun h1 h2 => should_continue_of_ge_max _ _ _ h1 h2⟩

/-- C5, witness: the amended statement evaluated on closed inputs. -/
theorem C5_witness :
    should_continue [] [] ecNone = true ∧
    should_continue (List.replicate 7 rowC5) [] ecC5min0 = false := by
  constructor
  · exact (C5_amended [] [] ecNone).1 (by simp [ecNone])
  · exact (C5_amended _ [] ecC5min0).2 (by simp [ecC5min0]) (by simp [ecC5min0])

/-- C2, counterexample: with a two-concept proficiency vector and a
question absent from the Q-matrix, the source update moves concept 1
(the all-ones default), while the update under the default the spec
claims, [1, 0], leaves concept 1 unchanged. -/
theorem C2_counterexample :
    qEmpty qC2.id = none ∧
    0 < (update_ability engine_learning_rate [0, 0] qC2 1 qEmpty).getD 1 0 ∧
    (update_ability_specDefault engine_learning_rate [0, 0] qC2 1 qEmpty).getD 1 0
      = 0 := by
  have hp1 := prob_ge [(0 : ℝ), 0] qC2 qEmpty
  have hp2 := prob_le [(0 : ℝ), 0] qC2 qEmpty
  refine ⟨rfl, ?_, ?_⟩
  · have hv : q_vector_for qEmpty qC2.id (List.length [(0 : ℝ), 0]) = [1, 1] := rfl
    unfold update_ability
    rw [hv]
    set p := calculate_probability [(0 : ℝ), 0] qC2 qEmpty with hpdef
    have hd : qC2.discrimination.getD 1 = 1 := rfl
    simp only [List.zipWith_cons_cons, List.zipWith_nil_right, hd]
    have hgoal : (0 : ℝ) <
        npclip (0 + engine_learning_rate * ((1 - p) * p * (1 - p) * 1 * 1)) (-3) 3 := by
      apply npclip_pos
      have h1p : (0 : ℝ) < 1 - p := by norm_num at hp2 ⊢; linarith
      have hpp : (0 : ℝ) < p := by norm_num at hp1 ⊢; linarith
      have hlrpos : (0 : ℝ) < engine_learning_rate := by
        unfold engine_learning_rate; norm_num
      have hprod : (0 : ℝ) < (1 - p) * p * (1 - p) := mul_pos (mul_pos h1p hpp) h1p
      nlinarith [mul_pos hlrpos hprod]
    simpa [List.getD_cons_succ, List.getD_cons_zero] using hgoal
  · have hv : q_vector_for_spec qEmpty qC2.id (List.length [(0 : ℝ), 0]) = [1, 0] := rfl
    unfold update_ability_specDefault
    rw [hv]
    simp only [List.zipWith_cons_cons, List.zipWith_nil_right]
    have hz : ∀ e p d : ℝ,
        npclip (0 + engine_learning_rate * (e * p * (1 - p) * d * 0)) (-3) 3 = 0 := by
      intro e p d
      rw [mul_zero, mul_zero, add_zero]
      exact npclip_id 0 (-3) 3 (by norm_num) (by norm_num)
    simpa [List.getD_cons_succ, List.getD_cons_zero] using
      hz (1 - calculate_probability_specDefault [(0 : ℝ), 0] qC2 qEmpty)
        (calculate_probability_specDefault [(0 : ℝ), 0] qC2 qEmpty)
        (qC2.discrimination.getD 1)

/-- C2, amended: in the probability computation and the proficiency
update, a question id missing from the Q-matrix gets the all-ones
default Q-vector [1, 1, ..., 1] (the item loads on every concept), i.e.
both functions behave as if the matrix mapped the id to all ones. -/
theorem C2_amended (qm : QMatrix) (q : Question) (proficiency : List ℝ)
    (response lr : ℝ) (h : qm q.id = none) :
    q_vector_for qm q.id proficiency.length =
      List.replicate proficiency.length 1 ∧
    calculate_probability proficiency q qm =
      calculate_probability proficiency q
        (fun id => if id = q.id then some (List.replicate proficiency.length 1)
          else qm id) ∧
    update_ability lr proficiency q response qm =
      update_ability lr proficiency q response
        (fun id => if id = q.id then some (List.replicate proficiency.length 1)
          else qm id) := by
  have hv : q_vector_for qm q.id proficiency.length =
      List.replicate proficiency.length 1 := by
    unfold q_vector_for
    rw [h]
    rfl
  have hv2 : q_vector_for
      (fun id => if id = q.id then some (List.replicate proficiency.length 1)
        else qm id) q.id proficiency.length =
      List.replicate proficiency.length 1 := by
    unfold q_vector_for
    simp
  refine ⟨hv, ?_, ?_⟩
  · unfold calculate_probability
    rw [hv, hv2]
  · unfold update_ability calculate_probability
    rw [hv, hv2]

/-- C2, witness: the amended statement applied at a concrete missing id. -/
theorem C2_witness :
    qEmpty qC2.id = none ∧
    (q_vector_for qEmpty qC2.id (List.length [(0 : ℝ)]) =
        List.replicate (List.length [(0 : ℝ)]) 1 ∧
      calculate_probability [0] qC2 qEmpty =
        calculate_probability [0] qC2
          (fun id => if id = qC2.id then
            some (List.replicate (List.length [(0 : ℝ)]) 1) else qEmpty id) ∧
      update_ability 1 [0] qC2 1 qEmpty =
        update_ability 1 [0] qC2 1
          (fun id => if id = qC2.id then
            some (List.replicate (List.length [(0 : ℝ)]) 1) else qEmpty id)) :=
  ⟨rfl, C2_amended qEmpty qC2 [0] 1 1 rfl⟩

/-- C8, counterexample: at the out-of-bounds proficiency vector [5], a
correct response on a question with discrimination 1 and Q-vector [1]
lowers component 0 (the clip bound 3 is below the current value), so the
claimed monotonicity fails without a bound on the incoming vector. -/
theorem C8_counterexample :
    0 < qC8.discrimination.getD 1 ∧
    (q_vector_for qmC8 qC8.id (List.length [(5 : ℝ)])).getD 0 0 = 1 ∧
    (update_ability engine_learning_rate [5] qC8 1 qmC8).getD 0 0 < 5 := by
  refine ⟨by norm_num [qC8], rfl, ?_⟩
  have hv : q_vector_for qmC8 qC8.id (List.length [(5 : ℝ)]) = [1] := rfl
  unfold update_ability
  rw [hv]
  simp only [List.zipWith_cons_cons, List.zipWith_nil_right]
  have hle : ∀ y : ℝ, npclip y (-3) 3 ≤ 3 := fun y => npclip_le_hi y (-3) 3 (by norm_num)
  have := hle (5 + engine_learning_rate *
    ((1 - calculate_probability [5] qC8 qmC8) * calculate_probability [5] qC8 qmC8 *
      (1 - calculate_probability [5] qC8 qmC8) * qC8.discrimination.getD 1 * 1))
  simp only [List.getD_cons_zero]
  calc _ ≤ (3 : ℝ) := this
    _ < 5 := by norm_num

/-- C8, amended: for a question with positive discrimination and a
Q-vector loading on concept i, and a current proficiency whose component
i lies within the clip bounds [-3, 3], a correct response does not
decrease component i and an incorrect response does not increase it. -/
theorem C8_amended (proficiency : List ℝ) (q : Question) (qm : QMatrix) (i : ℕ)
    (ha : 0 < q.discrimination.getD 1)
    (hi : i < proficiency.length)
    (hlen : (q_vector_for qm q.id proficiency.length).length =
      proficiency.length)
    (hq : (q_vector_for qm q.id proficiency.length).getD i 0 = 1)
    (h3 : proficiency.getD i 0 ≤ 3)
    (hm3 : -3 ≤ proficiency.getD i 0) :
    proficiency.getD i 0 ≤
        (update_ability engine_learning_rate proficiency q 1 qm).getD i 0 ∧
      (update_ability engine_learning_rate proficiency q 0 qm).getD i 0 ≤
        proficiency.getD i 0 := by
  have hp1 := prob_ge proficiency q qm
  have hp2 := prob_le proficiency q qm
  set p := calculate_probability proficiency q qm with hpdef
  have hp0 : (0 : ℝ) ≤ p := by norm_num at hp1 ⊢; linarith
  have h1p : (0 : ℝ) ≤ 1 - p := by norm_num at hp2 ⊢; linarith
  have hlr : (0 : ℝ) ≤ engine_learning_rate := by
    unfold engine_learning_rate; norm_num
  constructor
  · unfold update_ability
    rw [getD_zipWith _ _ _ _ _ hi (by omega), hq, ← hpdef]
    have hgrad : 0 ≤ (1 - p) * p * (1 - p) * q.discrimination.getD 1 * 1 := by
      have := mul_nonneg (mul_nonneg (mul_nonneg h1p hp0) h1p) ha.le
      simpa using this
    have hy : proficiency.getD i 0 ≤
        proficiency.getD i 0 + engine_learning_rate *
          ((1 - p) * p * (1 - p) * q.discrimination.getD 1 * 1) :=
      le_add_of_nonneg_right (mul_nonneg hlr hgrad)
    unfold npclip
    exact le_trans (le_min h3 hy) (le_max_right _ _)
  · unfold update_ability
    rw [getD_zipWith _ _ _ _ _ hi (by omega), hq, ← hpdef]
    have hgrad : (0 - p) * p * (1 - p) * q.discrimination.getD 1 * 1 ≤ 0 := by
      have hn : (0 - p) ≤ 0 := by linarith
      have s1 : (0 - p) * p ≤ 0 := mul_nonpos_of_nonpos_of_nonneg hn hp0
      have s2 : (0 - p) * p * (1 - p) ≤ 0 := mul_nonpos_of_nonpos_of_nonneg s1 h1p
      have s3 : (0 - p) * p * (1 - p) * q.discrimination.getD 1 ≤ 0 :=
        mul_nonpos_of_nonpos_of_nonneg s2 ha.le
      simpa using s3
    have hy : proficiency.getD i 0 + engine_learning_rate *
        ((0 - p) * p * (1 - p) * q.discrimination.getD 1 * 1) ≤
        proficiency.getD i 0 :=
      add_le_of_nonpos_right (mul_nonpos_of_nonneg_of_nonpos hlr hgrad)
    unfold npclip
    exact max_le hm3 (le_trans (min_le_right _ _) hy)

/-- C8, witness: the amended statement evaluated at proficiency [0]. -/
theorem C8_witness :
    List.getD [(0 : ℝ)] 0 0 ≤
        (update_ability engine_learning_rate [0] qC8 1 qEmpty).getD 0 0 ∧
      (update_ability engine_learning_rate [0] qC8 0 qEmpty).getD 0 0 ≤
        List.getD [(0 : ℝ)] 0 0 :=
  C8_amended [0] qC8 qEmpty 0 (by norm_num [qC8]) (by norm_num) rfl rfl
    (by norm_num) (by norm_num)

lemma info_nonneg (q : Question) (proficiency : List ℝ) (qm : QMatrix) :
    0 ≤ calculate_information q proficiency qm := by
  unfold calculate_information
  have h1 := prob_ge proficiency q qm
  have h2 := prob_le proficiency q qm
  have hp : (0 : ℝ) ≤ calculate_probability proficiency q qm := by
    norm_num at h1 ⊢; linarith
  have h1p : (0 : ℝ) ≤ 1 - calculate_probability proficiency q qm := by
    norm_num at h2 ⊢; linarith
  exact mul_nonneg (mul_nonneg (sq_nonneg _) hp) h1p

/-- Specification of the selection fold: either nothing ever beat the
initial bound and the accumulator is untouched, or the result is the
first list element attaining the running maximum. -/
lemma selStep_foldl_spec (f : Question → ℝ) (l : List Question) :
    ∀ (m : ℝ) (x : Question),
      (l.foldl (selStep f) (m, x) = (m, x) ∧ ∀ q ∈ l, f q ≤ m) ∨
      (∃ l1 b l2, l = l1 ++ b :: l2 ∧
        l.foldl (selStep f) (m, x) = (f b, b) ∧ m < f b ∧
        (∀ q ∈ l1, f q < f b) ∧ (∀ q ∈ l2, f q ≤ f b)) := by
  induction l with
  | nil =>
      intro m x
      left
      simp
  | cons q l ih =>
      intro m x
      by_cases h : m < f q
      · have hstep : selStep f (m, x) q = (f q, q) := by simp [selStep, h]
        rcases ih (f q) q with ⟨heq, hle⟩ | ⟨l1, b, l2, hsplit, heq, hlt, hl1, hl2⟩
        · right
          exact ⟨[], q, l, by simp, by simp [hstep, heq], h, by simp, hle⟩
        · right
          refine ⟨q :: l1, b, l2, by simp [hsplit], by simp [hstep, heq],
            lt_trans h hlt, ?_, hl2⟩
          intro q2 hq2
          rcases List.mem_cons.mp hq2 with rfl | hmem
          · exact hlt
          · exact hl1 _ hmem
      · have hstep : selStep f (m, x) q = (m, x) := by simp [selStep, h]
        rcases ih m x with ⟨heq, hle⟩ | ⟨l1, b, l2, hsplit, heq, hlt, hl1, hl2⟩
        · left
          constructor
          · simp [hstep, heq]
          · intro q2 hq2
            rcases List.mem_cons.mp hq2 with rfl | hmem
            · exact not_lt.mp h
            · exact hle _ hmem
        · right
          refine ⟨q :: l1, b, l2, by simp [hsplit], by simp [hstep, heq], hlt,
            ?_, hl2⟩
          intro q2 hq2
          rcases List.mem_cons.mp hq2 with rfl | hmem
          · exact lt_of_le_of_lt (not_lt.mp h) hlt
          · exact hl1 _ hmem

/-- C6: select_next_question returns the empty marker exactly when every
pool question is already answered; otherwise it returns an unanswered
question maximizing Fisher information against the current proficiency,
with ties broken toward the first-encountered question. -/
theorem C6_select_next_question (questions : List Question) (qm : QMatrix)
    (proficiency : List ℝ) (responses : List ResponseRow) :
    (select_next_question questions qm proficiency responses = none ↔
      available_questions questions responses = []) ∧
    (∀ b, select_next_question questions qm proficiency responses = some b →
      b ∈ available_questions questions responses ∧
      b.id ∉ used_ids responses ∧
      (∀ q ∈ available_questions questions responses,
        calculate_information q proficiency qm ≤
          calculate_information b proficiency qm) ∧
      ∃ l1 l2, available_questions questions responses = l1 ++ b :: l2 ∧
        ∀ q ∈ l1, calculate_information q proficiency qm <
          calculate_information b proficiency qm) := by
  unfold select_next_question
  cases havail : available_questions questions responses with
  | nil => simp
  | cons q0 rest =>
      constructor
      · simp
      · intro b hb
        simp only [Option.some.injEq] at hb
        set f := fun q => calculate_information q proficiency qm with hf
        have hspec := selStep_foldl_spec f (q0 :: rest) (-1) q0
        rcases hspec with ⟨heq, hle⟩ | ⟨l1, b2, l2, hsplit, heq, hlt, hl1, hl2⟩
        · exfalso
          have h0 : f q0 ≤ -1 := hle q0 (by simp)
          have h1 : (0 : ℝ) ≤ f q0 := info_nonneg q0 proficiency qm
          linarith
        · have hbb : b = b2 := by rw [heq] at hb; exact hb.symm
          subst hbb
          have hmem : b ∈ q0 :: rest := by
            rw [hsplit]
            exact List.mem_append_right _ (List.mem_cons_self _ _)
          refine ⟨hmem, ?_, ?_, l1, l2, hsplit, hl1⟩
          · have hmem2 : b ∈ available_questions questions responses := by
              rw [havail]; exact hmem
            unfold available_questions at hmem2
            have := List.of_mem_filter hmem2
            simpa using this
          · intro q hq
            rw [hsplit] at hq
            rcases List.mem_append.mp hq with hq1 | hq2
            · exact (hl1 _ hq1).le
            · rcases List.mem_cons.mp hq2 with rfl | hq3
              · exact le_refl _
              · exact hl2 _ hq3

/-- C6, witness: with the single pool question already answered, the
selection returns the empty marker. -/
theorem C6_witness :
    select_next_question [qC6] qEmpty [] [rowC6] = none :=
  (C6_select_next_question [qC6] qEmpty [] [rowC6]).1.mpr (by
    simp [available_questions, used_ids, qC6, rowC6])

lemma get_session_state_delete (store : RedisStore) (sid : String) (now : ℤ) :
    get_session_state (delete_session_state store sid) sid now = none := by
  unfold get_session_state delete_session_state
  simp

lemma get_session_complete (w : World) (sid : String) (prof : List ℝ)
    (n c : ℕ) (now : ℤ) :
    get_session (complete_session w sid prof n c now) sid =
      (get_session w sid).map
        (fun row =>
          { row with
              status := "completed"
              final_proficiency := some prof
              total_questions := n
              correct_responses := c
              accuracy := some (if 0 < n then (c : ℝ) / (n : ℝ) else 0.0)
              completed_at := some now }) := by
  unfold get_session complete_session
  simp only []
  rw [List.find?_map]
  have hfun : (fun (row : SessionRow) =>
      (if row.id = sid then
        { row with
            status := "completed"
            final_proficiency := some prof
            total_questions := n
            correct_responses := c
            accuracy := some (if 0 < n then (c : ℝ) / (n : ℝ) else 0.0)
            completed_at := some now }
      else row).id == sid) = (fun row => row.id == sid) := by
    funext row
    by_cases h : row.id = sid <;> simp [h]
  simp only [Function.comp_def]
  rw [hfun]
  cases hfind : w.sessions.find? (fun row => row.id == sid) with
  | none => simp
  | some row =>
      have hid : row.id = sid := by
        have := List.find?_some hfind
        simpa using this
      simp [hid]

/-- Evaluation of two successive end calls on an active hot session. -/
lemma end_test_twice_spec (w : World) (sid : String) (now1 now2 : ℤ)
    (s0 : SessionState)
    (h1 : get_session_state w.redis sid now1 = some s0)
    (hrow : ∃ row ∈ w.sessions, row.id = sid) :
    (end_test (end_test w sid now1).2 sid now2).2 = (end_test w sid now1).2 ∧
    (end_test w sid now1).1 = .ok
      { status := "ended"
        final_proficiency := s0.current_proficiency
        total_questions := s0.questions_answered
        accuracy :=
          if 0 < s0.questions_answered then
            (s0.correct_count : ℝ) / (s0.questions_answered : ℝ)
          else 0.0 } ∧
    (end_test (end_test w sid now1).2 sid now2).1 = .ok
      { status := "completed"
        final_proficiency := s0.current_proficiency
        total_questions := s0.questions_answered
        accuracy :=
          if 0 < s0.questions_answered then
            (s0.correct_count : ℝ) / (s0.questions_answered : ℝ)
          else 0.0 } := by
  have hrun1 : end_test w sid now1 =
      (.ok
        { status := "ended"
          final_proficiency := s0.current_proficiency
          total_questions := s0.questions_answered
          accuracy :=
            if 0 < s0.questions_answered then
              (s0.correct_count : ℝ) / (s0.questions_answered : ℝ)
            else 0.0 },
        { complete_session w sid s0.current_proficiency s0.questions_answered
            s0.correct_count now1 with
            redis := delete_session_state
              (complete_session w sid s0.current_proficiency
                s0.questions_answered s0.correct_count now1).redis sid }) := by
    unfold end_test
    rw [h1]
  obtain ⟨row0, hrow0mem, hrow0id⟩ := hrow
  have hfindsome : (w.sessions.find? (fun row => row.id == sid)).isSome := by
    rw [List.find?_isSome]
    exact ⟨row0, hrow0mem, by simp [hrow0id]⟩
  obtain ⟨rowF, hrowF⟩ := Option.isSome_iff_exists.mp hfindsome
  have hget2 : get_session
      (complete_session w sid s0.current_proficiency s0.questions_answered
        s0.correct_count now1) sid =
      some
        { rowF with
            status := "completed"
            final_proficiency := some s0.current_proficiency
            total_questions := s0.questions_answered
            correct_responses := s0.correct_count
            accuracy := some
              (if 0 < s0.questions_answered then
                (s0.correct_count : ℝ) / (s0.questions_answered : ℝ)
              else 0.0)
            completed_at := some now1 } := by
    rw [get_session_complete]
    unfold get_session
    rw [hrowF]
    rfl
  have hrun2 : end_test (end_test w sid now1).2 sid now2 =
      (.ok
        { status := "completed"
          final_proficiency := s0.current_proficiency
          total_questions := s0.questions_answered
          accuracy :=
            if 0 < s0.questions_answered then
              (s0.correct_count : ℝ) / (s0.questions_answered : ℝ)
            else 0.0 },
        (end_test w sid now1).2) := by
    rw [hrun1]
    unfold end_test
    simp only [get_session_state_delete]
    rw [show get_session
        { complete_session w sid s0.current_proficiency s0.questions_answered
            s0.correct_count now1 with
            redis := delete_session_state
              (complete_session w sid s0.current_proficiency
                s0.questions_answered s0.correct_count now1).redis sid } sid =
        get_session
          (complete_session w sid s0.current_proficiency s0.questions_answered
            s0.correct_count now1) sid from rfl]
    rw [hget2]
    simp
  exact ⟨by rw [hrun2], by rw [hrun1], by rw [hrun2]⟩

/-- C7, amended: a second call to end on an already-ended session is a
no-op on the state and returns the same final proficiency, question
total and accuracy as the first call; but its status field is the
stored "completed", not the "ended" status the first call returns. -/
theorem C7_amended (w : World) (sid : String) (now1 now2 : ℤ) (s0 : SessionState)
    (h1 : get_session_state w.redis sid now1 = some s0)
    (hrow : ∃ row ∈ w.sessions, row.id = sid) :
    (end_test (end_test w sid now1).2 sid now2).2 = (end_test w sid now1).2 ∧
    ∃ p1 p2, (end_test w sid now1).1 = .ok p1 ∧
      (end_test (end_test w sid now1).2 sid now2).1 = .ok p2 ∧
      p1.status = "ended" ∧ p2.status = "completed" ∧
      p2.final_proficiency = p1.final_proficiency ∧
      p2.total_questions = p1.total_questions ∧
      p2.accuracy = p1.accuracy := by
  obtain ⟨hnoop, hr1, hr2⟩ := end_test_twice_spec w sid now1 now2 s0 h1 hrow
  exact ⟨hnoop, _, _, hr1, hr2, rfl, rfl, rfl, rfl, rfl⟩

/-- C7, counterexample: on a concrete session, the first end call
returns status "ended" while the second returns status "completed", so
the two completion payloads are not the same. -/
theorem C7_counterexample :
    (end_test wC7 "s" 0).1 = .ok ⟨"ended", [2], 1, 1⟩ ∧
    (end_test (end_test wC7 "s" 0).2 "s" 0).1 = .ok ⟨"completed", [2], 1, 1⟩ ∧
    ("ended" : String) ≠ "completed" := by
  have h1 : get_session_state wC7.redis "s" 0 = some stC7 := by
    unfold get_session_state wC7
    norm_num
  obtain ⟨hnoop, hr1, hr2⟩ := end_test_twice_spec wC7 "s" 0 0 stC7 h1
    ⟨rowDbC7, by simp [wC7], rfl⟩
  refine ⟨?_, ?_, by simp⟩
  · rw [hr1]
    norm_num [stC7]
  · rw [hr2]
    norm_num [stC7]

/-- C7, witness: the amended statement applied to the concrete session. -/
theorem C7_witness :
    (end_test (end_test wC7 "s" 0).2 "s" 0).2 = (end_test wC7 "s" 0).2 ∧
    ∃ p1 p2, (end_test wC7 "s" 0).1 = .ok p1 ∧
      (end_test (end_test wC7 "s" 0).2 "s" 0).1 = .ok p2 ∧
      p1.status = "ended" ∧ p2.status = "completed" ∧
      p2.final_proficiency = p1.final_proficiency ∧
      p2.total_questions = p1.total_questions ∧
      p2.accuracy = p1.accuracy :=
  C7_amended wC7 "s" 0 0 stC7
    (by unfold get_session_state wC7; norm_num)
    ⟨rowDbC7, by simp [wC7], rfl⟩

lemma select_next_question_single (questions : List Question) (qm : QMatrix)
    (proficiency : List ℝ) (responses : List ResponseRow) (q : Question)
    (h : available_questions questions responses = [q]) :
    select_next_question questions qm proficiency responses = some q := by
  unfold select_next_question
  rw [h]
  simp only [List.foldl_cons, List.foldl_nil]
  unfold selStep
  split <;> rfl

lemma start_envC3_eval :
    (start_test envC3 emptyWorld "s1" "p" ["Math"] ecNone "sess" 0).1 =
      .ok plC3 := by
  unfold start_test
  rw [if_neg (show ¬("s1" : String) = "" by decide)]
  have hq : envC3.pool_questions "p" = [qC3] := rfl
  rw [hq]
  rw [if_neg (show ¬([qC3] = ([] : List Question)) by simp)]
  have hprof : get_current_proficiency
      (get_or_create_student emptyWorld "s1" ["Math"]) "s1" = [0.5] := by
    unfold get_current_proficiency get_or_create_student emptyWorld
    norm_num
  have hsel : select_next_question [qC3] (create_q_matrix [qC3]) [0.5] [] =
      some qC3 :=
    select_next_question_single _ _ _ _ _ (by unfold available_questions used_ids; simp)
  simp [hprof, hsel, plC3]

/-- C3, counterexample: a concrete successful start whose first-question
payload still carries the correct_answer field (value some "4"), so the
correct answer is not stripped from the start response. -/
theorem C3_counterexample :
    (start_test envC3 emptyWorld "s1" "p" ["Math"] ecNone "sess" 0).1 =
      .ok plC3 ∧
    plC3.next_question.correct_answer = some "4" ∧
    (some "4" : Option String) ≠ none :=
  ⟨start_envC3_eval, rfl, by simp⟩

/-- C3, amended: the next_question object in a successful start response
is the engine-selected question unchanged, with its correct_answer field
retained; the correct answer is only stripped when individual questions
are cached in the hot store, never from the start payload. -/
theorem C3_amended (env : Env) (w : World) (student_id question_pool_id : String)
    (concept_names : List String) (end_criteria : EndCriteria)
    (session_id : String) (now : ℤ) (pl : StartPayload)
    (h : (start_test env w student_id question_pool_id concept_names
      end_criteria session_id now).1 = .ok pl) :
    ∃ q, select_next_question (env.pool_questions question_pool_id)
        (create_q_matrix (env.pool_questions question_pool_id))
        pl.initial_proficiency [] = some q ∧
      pl.next_question = q ∧
      pl.next_question.correct_answer = q.correct_answer := by
  simp only [start_test] at h
  split at h
  · exact absurd h (by simp)
  split at h
  · exact absurd h (by simp)
  split at h
  case _ hsel => exact absurd h (by simp)
  case _ nq hsel =>
    simp only [StartResult.ok.injEq] at h
    subst h
    exact ⟨nq, hsel, rfl, rfl⟩

/-- C3, witness: the amended statement applied to the concrete start. -/
theorem C3_witness :
    ∃ q, select_next_question (envC3.pool_questions "p")
        (create_q_matrix (envC3.pool_questions "p"))
        plC3.initial_proficiency [] = some q ∧
      plC3.next_question = q ∧
      plC3.next_question.correct_answer = q.correct_answer :=
  C3_amended envC3 emptyWorld "s1" "p" ["Math"] ecNone "sess" 0 plC3
    start_envC3_eval

@[simp] lemma update_user_proficiency_redis (w : World) (s : String)
    (p : List ℝ) : (update_user_proficiency w s p).redis = w.redis := by
  unfold update_user_proficiency
  split <;> rfl

@[simp] lemma update_user_proficiency_locks (w : World) (s : String)
    (p : List ℝ) : (update_user_proficiency w s p).locks = w.locks := by
  unfold update_user_proficiency
  split <;> rfl

@[simp] lemma update_user_proficiency_sessions (w : World) (s : String)
    (p : List ℝ) : (update_user_proficiency w s p).sessions = w.sessions := by
  unfold update_user_proficiency
  split <;> rfl

@[simp] lemma update_user_proficiency_test_responses (w : World) (s : String)
    (p : List ℝ) : (update_user_proficiency w s p).test_responses =
      w.test_responses := by
  unfold update_user_proficiency
  split <;> rfl

lemma get_session_state_store (store : RedisStore) (sid : String)
    (st : SessionState) (now t : ℤ) :
    get_session_state (store_session_state store sid st now) sid t =
      if t < now + 30 * 60 then some { st with last_activity := now } else none := by
  unfold get_session_state store_session_state
  simp

/-- Evaluation of one submit call through the continue branch. -/
lemma submit_continue_eval (env : Env) (w : World) (sid qid : String)
    (resp : ℕ) (now : ℤ) (st : SessionState) (q nq : Question) (np : List ℝ)
    (row : ResponseRow)
    (hnp : np = update_ability engine_learning_rate st.current_proficiency q
      (resp : ℝ) (create_q_matrix (env.pool_questions st.question_pool_id)))
    (hrow : row =
      { student_id := st.student_id, session_id := sid, question_id := qid,
        response := resp, is_correct := resp,
        proficiency_before := st.current_proficiency,
        proficiency_after := np, timestamp := now })
    (hlock : w.locks (sid, qid) = false)
    (hget : get_session_state w.redis sid now = some st)
    (hact : st.status = "active")
    (hq : env.question_by_id qid = some q)
    (hmin : ((w.test_responses ++ [row]).filter
        (fun r => r.student_id == st.student_id && r.session_id == sid)).length <
      st.end_criteria.min_questions.getD 5)
    (hsel : select_next_question (env.pool_questions st.question_pool_id)
        (create_q_matrix (env.pool_questions st.question_pool_id)) np
        ((w.test_responses ++ [row]).filter
          (fun r => r.student_id == st.student_id && r.session_id == sid)) =
      some nq) :
    (submit_response env w sid qid resp now).1 =
      .continueTest np nq (st.questions_answered + 1) ∧
    (submit_response env w sid qid resp now).2.redis =
      store_session_state
        (update_session_proficiency w.redis sid np (st.questions_answered + 1)
          now) sid
        { st with
            next_question_id := nq.id
            correct_count := st.correct_count + (if resp = 1 then 1 else 0) }
        now ∧
    (submit_response env w sid qid resp now).2.test_responses =
      w.test_responses ++ [row] ∧
    (submit_response env w sid qid resp now).2.locks (sid, qid) = false := by
  have hcont := should_continue_of_lt_min
    ((w.test_responses ++ [row]).filter
      (fun r => r.student_id == st.student_id && r.session_id == sid)) np
    st.end_criteria hmin
  subst hnp
  subst hrow
  simp only [submit_response, lock_free, hlock, Bool.not_false, take_lock,
    get_user_responses, update_session_activity, store_response,
    update_user_proficiency_redis, update_user_proficiency_locks,
    update_user_proficiency_sessions, update_user_proficiency_test_responses,
    hget, hact, hq, release_lock, hcont, hsel]
  refine ⟨by simp, by simp, by simp, by simp⟩

/-- Evaluation of the first submit call on the concrete world wC4. -/
lemma submit_wC4_run1 :
    (submit_response envC4 wC4 "s" "q1" 1 10).1 = .continueTest npC4 q2C4 1 ∧
    (submit_response envC4 wC4 "s" "q1" 1 10).2.redis "s" =
      some ⟨stC4after, 10 + 30 * 60⟩ ∧
    (submit_response envC4 wC4 "s" "q1" 1 10).2.test_responses = [rowC4 10] ∧
    (submit_response envC4 wC4 "s" "q1" 1 10).2.locks ("s", "q1") = false ∧
    get_session_state (submit_response envC4 wC4 "s" "q1" 1 10).2.redis "s" 20 =
      some stC4after := by
  have hget : get_session_state wC4.redis "s" 10 = some stC4 := by
    unfold get_session_state wC4
    norm_num
  have hfilter : (wC4.test_responses ++ [rowC4 10]).filter
      (fun r => r.student_id == stC4.student_id && r.session_id == "s") =
      [rowC4 10] := by
    simp [wC4, rowC4, stC4]
  have hsel : select_next_question (envC4.pool_questions stC4.question_pool_id)
      (create_q_matrix (envC4.pool_questions stC4.question_pool_id)) npC4
      ((wC4.test_responses ++ [rowC4 10]).filter
        (fun r => r.student_id == stC4.student_id && r.session_id == "s")) =
      some q2C4 := by
    rw [hfilter]
    exact select_next_question_single _ _ _ _ _
      (by simp [available_questions, used_ids, envC4, stC4, q1C4, q2C4, rowC4])
  have he := submit_continue_eval envC4 wC4 "s" "q1" 1 10 stC4 q1C4 q2C4 npC4
    (rowC4 10) rfl rfl rfl hget rfl rfl
    (by rw [hfilter]; norm_num [stC4, ecNone]) hsel
  obtain ⟨h1, h2, h3, h4⟩ := he
  have hred : (submit_response envC4 wC4 "s" "q1" 1 10).2.redis "s" =
      some ⟨stC4after, 10 + 30 * 60⟩ := by
    rw [h2]
    unfold store_session_state
    norm_num
    unfold stC4after stC4 q2C4
    norm_num
  refine ⟨h1, hred, by rw [h3]; simp [wC4], h4, ?_⟩
  rw [h2, get_session_state_store]
  norm_num
  unfold stC4after stC4 q2C4
  norm_num

lemma npC4_head_gt :
    0.5 < npC4.getD 0 0 := by
  have hp1 := prob_ge [(0.5 : ℝ)] q1C4 (create_q_matrix [q1C4, q2C4])
  have hp2 := prob_le [(0.5 : ℝ)] q1C4 (create_q_matrix [q1C4, q2C4])
  set p := calculate_probability [(0.5 : ℝ)] q1C4 (create_q_matrix [q1C4, q2C4])
    with hpdef
  have h1 : (0.01 : ℝ) ≤ p := by norm_num at hp1 ⊢; linarith
  have h2 : p ≤ (0.99 : ℝ) := hp2
  have hv : q_vector_for (create_q_matrix [q1C4, q2C4]) q1C4.id
      (List.length [(0.5 : ℝ)]) = [1] := by
    simp [q_vector_for, create_q_matrix, q1C4, q2C4]
  unfold npC4 update_ability
  rw [hv, ← hpdef]
  simp only [List.zipWith_cons_cons, List.zipWith_nil_right, List.getD_cons_zero,
    Nat.cast_one]
  have hd : q1C4.discrimination.getD 1 = 1 := rfl
  rw [hd]
  have h1p : (0 : ℝ) < 1 - p := by linarith
  have hpp : (0 : ℝ) < p := by linarith
  have ha1 : (1 : ℝ) - p ≤ 1 := by linarith
  have hb1 : p ≤ 1 := by linarith
  have hg1 : (0 : ℝ) < (1 - p) * p * (1 - p) := mul_pos (mul_pos h1p hpp) h1p
  have hg2 : (1 - p) * p * (1 - p) ≤ 1 :=
    mul_le_one₀ (mul_le_one₀ ha1 hpp.le hb1) h1p.le ha1
  have hlr : engine_learning_rate = (0.1 : ℝ) := rfl
  rw [hlr]
  rw [npclip_id _ _ _ (by nlinarith) (by nlinarith)]
  nlinarith

/-- C1: on a concrete continue-path submit, the payload reports the new
proficiency and an incremented counter, but the hot state written last
still holds the old proficiency [0.5] and the old questions_answered 0,
because the final store_session_state writes the stale state dict and
overwrites the update_session_proficiency write. -/
theorem C1_hot_state_stale :
    (submit_response envC4 wC4 "s" "q1" 1 10).1 = .continueTest npC4 q2C4 1 ∧
    0.5 < npC4.getD 0 0 ∧
    (submit_response envC4 wC4 "s" "q1" 1 10).2.redis "s" =
      some ⟨stC4after, 10 + 30 * 60⟩ ∧
    stC4after.questions_answered = 0 ∧
    stC4after.current_proficiency = [0.5] :=
  ⟨submit_wC4_run1.1, npC4_head_gt, submit_wC4_run1.2.1, rfl, rfl⟩

/-- Evaluation of a second identical submit call after the first. -/
lemma submit_wC4_run2 :
    (submit_response envC4 (submit_response envC4 wC4 "s" "q1" 1 10).2
      "s" "q1" 1 20).1 = .continueTest npC4 q2C4 1 ∧
    (submit_response envC4 (submit_response envC4 wC4 "s" "q1" 1 10).2
      "s" "q1" 1 20).2.test_responses = [rowC4 10, rowC4 20] := by
  obtain ⟨h1, h2, h3, h4, h5⟩ := submit_wC4_run1
  have hfilter : ((submit_response envC4 wC4 "s" "q1" 1 10).2.test_responses ++
      [rowC4 20]).filter
      (fun r => r.student_id == stC4after.student_id && r.session_id == "s") =
      [rowC4 10, rowC4 20] := by
    rw [h3]
    simp [rowC4, stC4after, stC4]
  have hsel : select_next_question
      (envC4.pool_questions stC4after.question_pool_id)
      (create_q_matrix (envC4.pool_questions stC4after.question_pool_id)) npC4
      (((submit_response envC4 wC4 "s" "q1" 1 10).2.test_responses ++
        [rowC4 20]).filter
        (fun r => r.student_id == stC4after.student_id && r.session_id == "s")) =
      some q2C4 := by
    rw [hfilter]
    exact select_next_question_single _ _ _ _ _
      (by simp [available_questions, used_ids, envC4, stC4after, stC4, q1C4,
        q2C4, rowC4])
  have he := submit_continue_eval envC4
    (submit_response envC4 wC4 "s" "q1" 1 10).2 "s" "q1" 1 20 stC4after q1C4
    q2C4 npC4 (rowC4 20) rfl rfl h4 h5 rfl rfl
    (by rw [hfilter]; norm_num [stC4after, stC4, ecNone]) hsel
  exact ⟨he.1, by rw [he.2.2.1, h3]; rfl⟩

/-- C4, counterexample: two sequential submits with the identical
(session_id, question_id) both succeed (the lock is released at the end
of each call), and afterwards the warm store holds two response records
for the pair, refuting both the at-most-one invariant and the claim
that every repeat returns DUPLICATE_SUBMISSION. -/
theorem C4_counterexample :
    (submit_response envC4 wC4 "s" "q1" 1 10).1 = .continueTest npC4 q2C4 1 ∧
    (submit_response envC4 (submit_response envC4 wC4 "s" "q1" 1 10).2
      "s" "q1" 1 20).1 = .continueTest npC4 q2C4 1 ∧
    List.countP (fun r => r.session_id == "s" && r.question_id == "q1")
      (submit_response envC4 (submit_response envC4 wC4 "s" "q1" 1 10).2
        "s" "q1" 1 20).2.test_responses = 2 := by
  refine ⟨submit_wC4_run1.1, submit_wC4_run2.1, ?_⟩
  rw [submit_wC4_run2.2]
  simp [rowC4]

/-- Appending behaviour of a lock-free submit that passes the session
and question checks: a response row is stored unconditionally, whether
or not one already exists for the pair. -/
lemma submit_appends_response (env : Env) (w : World) (sid qid : String)
    (resp : ℕ) (now : ℤ) (st : SessionState) (q : Question)
    (hlock : w.locks (sid, qid) = false)
    (hget : get_session_state w.redis sid now = some st)
    (hact : st.status = "active")
    (hq : env.question_by_id qid = some q) :
    (submit_response env w sid qid resp now).2.test_responses =
      w.test_responses ++
        [{ student_id := st.student_id
           session_id := sid
           question_id := qid
           response := resp
           is_correct := resp
           proficiency_before := st.current_proficiency
           proficiency_after := update_ability engine_learning_rate
             st.current_proficiency q (resp : ℝ)
             (create_q_matrix (env.pool_questions st.question_pool_id))
           timestamp := now }] := by
  simp only [submit_response, lock_free, hlock, Bool.not_false, take_lock,
    get_user_responses, update_session_activity, store_response,
    update_user_proficiency_redis, update_user_proficiency_locks,
    update_user_proficiency_sessions, update_user_proficiency_test_responses,
    hget, hact, hq, release_lock, complete_session, delete_session_state]
  rw [if_neg (show ¬(true = false) by simp)]
  rw [if_neg (show ¬(("active" : String) ≠ "active") by simp)]
  split
  · split <;> simp
  · simp

/-- C4, amended: the uniqueness guarantee is only per lock window: a
submit arriving while the pair lock is held returns DUPLICATE_SUBMISSION
and changes nothing, while every lock-free submit that passes the
session and question checks appends a response row for the pair, even if
one already exists, so sequential repeats each succeed and accumulate
rows. -/
theorem C4_amended (env : Env) (w : World) (sid qid : String) (resp : ℕ)
    (now : ℤ) :
    (w.locks (sid, qid) = true →
      submit_response env w sid qid resp now = (.duplicate, w)) ∧
    (∀ st q, w.locks (sid, qid) = false →
      get_session_state w.redis sid now = some st →
      st.status = "active" →
      env.question_by_id qid = some q →
      (submit_response env w sid qid resp now).2.test_responses =
        w.test_responses ++
          [{ student_id := st.student_id
             session_id := sid
             question_id := qid
             response := resp
             is_correct := resp
             proficiency_before := st.current_proficiency
             proficiency_after := update_ability engine_learning_rate
               st.current_proficiency q (resp : ℝ)
               (create_q_matrix (env.pool_questions st.question_pool_id))
             timestamp := now }]) := by
  constructor
  · intro h
    unfold submit_response lock_free
    rw [h]
    simp
  · intro st q hlock hget hact hq
    exact submit_appends_response env w sid qid resp now st q hlock hget hact hq

/-- C4, witness: the amended statement at concrete inputs, on the locked
and the unlocked world. -/
theorem C4_witness :
    submit_response envC4 wC4locked "s" "q1" 1 0 = (.duplicate, wC4locked) ∧
    (submit_response envC4 wC4 "s" "q1" 1 10).2.test_responses =
      wC4.test_responses ++
        [{ student_id := stC4.student_id
           session_id := "s"
           question_id := "q1"
           response := 1
           is_correct := 1
           proficiency_before := stC4.current_proficiency
           proficiency_after := update_ability engine_learning_rate
             stC4.current_proficiency q1C4 ((1 : ℕ) : ℝ)
             (create_q_matrix (envC4.pool_questions stC4.question_pool_id))
           timestamp := 10 }] :=
  ⟨(C4_amended envC4 wC4locked "s" "q1" 1 0).1 rfl,
    (C4_amended envC4 wC4 "s" "q1" 1 10).2 stC4 q1C4 rfl
      (by unfold get_session_state wC4; norm_num) rfl rfl⟩

end AdaptiveTest
